import Mathlib

set_option maxHeartbeats 1000000

/-! Shallow embedding of the Thor consensus engine: the fork configuration and
the static VRF key table (thor package), the BFT RTPC tracker (bft package),
and the block processing pipeline (consensus package).  Machine integers are
modelled as Nat; fallible calls return Except or an explicit outcome type;
collaborator services that live outside the embedded files (repository,
state tree, authority contract, view construction) are supplied as explicit
function-valued environment records. -/

/-- Fork configuration: activation block numbers for the four recognized
forks.  Fields are uint32 in the source. -/
structure ForkConfig where
  VIP191 : Nat
  ETH_CONST : Nat
  BLOCKLIST : Nat
  VIP193 : Nat
  deriving DecidableEq, Repr

/-- The NoFork sentinel from the source: VIP191, ETH_CONST and BLOCKLIST are
set to math.MaxUint32 while VIP193 is set to math.MaxInt32. -/
def NoFork : ForkConfig :=
  { VIP191 := 4294967295
    ETH_CONST := 4294967295
    BLOCKLIST := 4294967295
    VIP193 := 2147483647 }

/-- First well-known masternode address of the static VRF key table. -/
def vrfAddr1 : Nat := 0x2a02604a8b7aaa84991c21d7de1c3238046c5275

/-- Second well-known masternode address of the static VRF key table. -/
def vrfAddr2 : Nat := 0x86fd9eb1cf082d7d6b0c6033fc89ccfcbf648549

/-- Third well-known masternode address of the static VRF key table. -/
def vrfAddr3 : Nat := 0x8f53d18bb03c84ed92abe0b6a9a8c277dbbf719f

/-- VRF public key registered for the first address. -/
def vrfKey1 : Nat := 0x96893d6f2d785dbdf75d635d74ee53b85a3e7837150d321c4965de3def134182

/-- VRF public key registered for the second address. -/
def vrfKey2 : Nat := 0x97b182c4d88435c3781bf5f29a59c169a91564acbf193c9ba95a4db3fa703f26

/-- VRF public key registered for the third address. -/
def vrfKey3 : Nat := 0x2ab534b885f45e7e628e3bea8bb1a7e914f0009d077a44ac2d4461e7731fcb2c

/-- Static map from node master address to VRF public key; a missing address
yields the zero value, exactly as a Go map lookup does. -/
def GetVrfPuiblicKey (addr : Nat) : Nat :=
  if addr = vrfAddr1 then vrfKey1
  else if addr = vrfAddr2 then vrfKey2
  else if addr = vrfAddr3 then vrfKey3
  else 0

/-! ## BFT package: the RTPC tracker -/

/-- Errors surfaced by the bft code: either an error propagated from a
collaborator (coded by a Nat) or the dedicated offspring violation. -/
inductive BErr where
  | code (e : Nat)
  | notOffspring
  deriving DecidableEq, Repr

/-- Block header as seen by the RTPC tracker: its id, timestamp, and the NV
pointer read off the header. -/
structure BHeader where
  id : Nat
  timestamp : Nat
  nv : Nat
  deriving DecidableEq, Repr

/-- Block summary wrapping a header, as returned by the repository. -/
structure BSummary where
  header : BHeader
  deriving DecidableEq, Repr

/-- Modelled from the spec: a BFT view with its tallies.  View construction
and the tally functions live outside the embedded files, so a view is
supplied abstractly: the id of its first block, whether it has a 2f+1
new-view quorum, the per-block pre-commit signature count, the pre-prepare
quorum result as the Go pair (ok, id), and the conflicting pre-commit flag. -/
structure BView where
  firstBlockID : Nat
  hasQCForNV : Bool
  numSigOnPC : Nat → Nat
  hasQCForPP : Bool × Nat
  hasConflictPC : Bool

/-- Modelled from the spec: a chain branch of the repository, able to fetch a
header by number and to construct the view anchored at a given NV number.
The branch walking code lives outside the embedded files. -/
structure Branch where
  headID : Nat
  getBlockHeader : Nat → Except BErr BHeader
  newView : Nat → Except BErr BView

/-- Repository interface used by the RTPC tracker.  getBlockSummary and
getBranchesByTimestamp mirror the repository collaborators; isAncestor is
modelled from the spec (ancestry check via the repository, outside the
embedded files); blockNumber is modelled from the spec (block number
extraction from a block id, whose encoding is not defined in the embedded
files). -/
structure BRepo where
  getBlockSummary : Nat → Except BErr BSummary
  isAncestor : Nat → Nat → Except BErr Bool
  newChain : Nat → Branch
  getBranchesByTimestamp : Nat → Except BErr (List Branch)
  blockNumber : Nat → Nat

/-- Mutable state of the RTPC tracker: the current candidate header, when
present, and the id of the last committed block. -/
structure RTPCState where
  curr : Option BHeader
  lastCommitted : Nat
  deriving DecidableEq, Repr

/-- Translation of rtpc.updateLastCommitted.  The returned pair carries the
Go error value and the receiver state after the call, so that mutations
performed before an error return are kept, exactly as in the source. -/
def rtpc.updateLastCommitted (repo : BRepo) (r : RTPCState) (lc : Nat) :
    Option BErr × RTPCState :=
  let check : Option BErr :=
    if r.lastCommitted ≠ 0 then
      match repo.isAncestor lc r.lastCommitted with
      | .error e => some e
      | .ok true => none
      | .ok false => some .notOffspring
    else none
  match check with
  | some e => (some e, r)
  | none =>
    let r1 : RTPCState := { r with lastCommitted := lc }
    match r1.curr with
    | none => (none, r1)
    | some c =>
      match repo.getBlockSummary lc with
      | .error e => (some e, r1)
      | .ok s =>
        if c.timestamp ≤ s.header.timestamp then (none, { r1 with curr := none })
        else (none, r1)

/-- Result of walking one branch in the monotone safety search of
rtpc.update: a newer quorum view without a pre-commit signature on the
candidate was found, the branch was exhausted, an error occurred, or the
fuel ran out (the Go loop would keep running). -/
inductive SearchRes where
  | found
  | done
  | err (e : BErr)
  | diverge
  deriving DecidableEq, Repr

/-- Translation of the inner loop of the monotone safety search in
rtpc.update, walking one branch downwards from block number num.  The
decrement of num is a uint32 subtraction, so it wraps at zero; fuel bounds
the iteration count. -/
def searchBranch (repo : BRepo) (br : Branch) (currViewTS candID : Nat) :
    Nat → Nat → SearchRes
  | 0, _ => .diverge
  | fuel + 1, num =>
    match br.getBlockHeader num with
    | .error e => .err e
    | .ok header =>
      let num1 := repo.blockNumber header.nv
      match br.getBlockHeader num1 with
      | .error e => .err e
      | .ok nvh =>
        if nvh.timestamp ≤ currViewTS then .done
        else
          match br.newView num1 with
          | .error e => .err e
          | .ok vw =>
            if vw.hasQCForNV ∧ vw.numSigOnPC candID = 0 then .found
            else
              let num2 := (num1 + 4294967295) % 4294967296
              if num2 = 0 then .done
              else searchBranch repo br currViewTS candID fuel num2

/-- Result of the whole monotone safety search of rtpc.update: the computed
ifUpdate flag, an error, or fuel exhaustion. -/
inductive SearchOut where
  | result (ifUpdate : Bool)
  | err (e : BErr)
  | diverge
  deriving DecidableEq, Repr

/-- Translation of the outer loop of the monotone safety search in
rtpc.update over the branches returned by the repository; the goto on a
found view aborts the remaining branches with ifUpdate set to false. -/
def searchBranches (repo : BRepo) (currViewTS candID fuel : Nat) :
    List Branch → SearchOut
  | [] => .result true
  | br :: rest =>
    match searchBranch repo br currViewTS candID fuel (repo.blockNumber br.headID) with
    | .found => .result false
    | .done => searchBranches repo currViewTS candID fuel rest
    | .err e => .err e
    | .diverge => .diverge

/-- Outcome of rtpc.update: normal return, a returned error, a nil
dereference panic, or fuel exhaustion of the search loop. -/
inductive UpdOut where
  | ok
  | err (e : BErr)
  | panic
  | diverge
  deriving DecidableEq, Repr

/-- Translation of the part of rtpc.update that runs once no valid RTPC
block is held: the pre-prepare quorum and conflict checks, the candidate and
last committed summary lookups, the timestamp guard, and the monotone safety
search followed by the adoption assignment. -/
def rtpc.updateRest (repo : BRepo) (fuel : Nat) (currView : BView)
    (currViewTS : Nat) (r1 : RTPCState) : UpdOut × RTPCState :=
  if ¬ currView.hasQCForPP.1 ∨ currView.hasConflictPC then (.ok, r1)
  else
    match repo.getBlockSummary currView.hasQCForPP.2 with
    | .error e => (.err e, r1)
    | .ok s2 =>
      let candidate := s2.header
      match repo.getBlockSummary r1.lastCommitted with
      | .error e => (.err e, r1)
      | .ok s3 =>
        if candidate.timestamp ≤ s3.header.timestamp then (.ok, r1)
        else
          match repo.getBranchesByTimestamp currViewTS with
          | .error e => (.err e, r1)
          | .ok branches =>
            match searchBranches repo currViewTS candidate.id fuel branches with
            | .err e => (.err e, r1)
            | .diverge => (.diverge, r1)
            | .result ifUpdate =>
              if ifUpdate then (.ok, { r1 with curr := some candidate })
              else (.ok, r1)

/-- Translation of rtpc.update.  The block summary of the first block of the
current view is dereferenced before its lookup error is checked, so a failed
lookup is a nil dereference panic rather than an error return.  The returned
pair carries the outcome and the receiver state after the call. -/
def rtpc.update (repo : BRepo) (fuel : Nat) (r : RTPCState) (newBlock : BHeader) :
    UpdOut × RTPCState :=
  let branch := repo.newChain newBlock.id
  match branch.newView (repo.blockNumber newBlock.nv) with
  | .error e => (.err e, r)
  | .ok currView =>
    if ¬ currView.hasQCForNV then (.ok, r)
    else
      match repo.getBlockSummary currView.firstBlockID with
      | .error _ => (.panic, r)
      | .ok summary =>
        let currViewTS := summary.header.timestamp
        let notNewer : Bool :=
          match r.curr with
          | some c => decide (currViewTS ≤ c.timestamp)
          | none => false
        if notNewer then (.ok, r)
        else
          let r1 : RTPCState :=
            match r.curr with
            | some c =>
              if currView.numSigOnPC c.id = 0 then { r with curr := none } else r
            | none => r
          if r1.curr.isSome then (.ok, r1)
          else rtpc.updateRest repo fuel currView currViewTS r1

/-! ## Consensus package: the Process pipeline -/

/-- Repository lookup error as classified by IsNotFound. -/
inductive LErr where
  | notFound
  | other (e : Nat)
  deriving DecidableEq, Repr

/-- Authority candidate record: node master, endorsor, identity and the
recorded active flag. -/
structure Candidate where
  nodeMaster : Nat
  endorsor : Nat
  identity : Nat
  active : Bool
  deriving DecidableEq, Repr

/-- Modelled from the spec: the native authority contract operations Add2 and
Update2, which live outside the embedded files.  They are supplied as state
transition functions over an abstract contract state (a Nat), each returning
the Go pair (ok, err) together with the successor state. -/
structure AuthOps where
  add2 : Nat → Nat → Nat → Nat → Nat → (Bool × Option Nat) × Nat
  update2 : Nat → Nat → Bool → (Bool × Option Nat) × Nat

/-- Tagged consensus errors produced by the embedded consensus code. -/
inductive CErr where
  | vip193Inconsistent (expected curr : Nat)
  | vrfKeyNotFound (node : Nat)
  | failedAddNode (node : Nat)
  | failedUpdateStatus (node : Nat)
  | authorityCode (cause : Nat)
  | txFeaturesMismatch (expected curr : Nat)
  deriving DecidableEq, Repr

/-- Outcome of UpdateConsensusNodesForVip193: success, a consensus error, a
plain error (from AllCandidates), or the out of bounds panic on the first
candidate access. -/
inductive UOut where
  | ok
  | cerr (e : CErr)
  | perr (e : Nat)
  | panic
  deriving DecidableEq, Repr

/-- Translation of the candidate loop of UpdateConsensusNodesForVip193: for
each candidate, look its node master up in the static VRF key table, fail on
a zero key, re-add it with Add2, and when it is recorded inactive apply
Update2 with active set to false, where a false result without error is
tolerated only for the candidate at index zero. -/
def vip193Loop (ops : AuthOps) : List Candidate → Nat → Nat → Except CErr Nat
  | [], _, st => .ok st
  | c :: rest, i, st =>
    let vrfpk := GetVrfPuiblicKey c.nodeMaster
    if vrfpk = 0 then .error (.vrfKeyNotFound c.nodeMaster)
    else
      let ra := ops.add2 st c.nodeMaster c.endorsor c.identity vrfpk
      if ¬ ra.1.1 ∨ ra.1.2.isSome then .error (.failedAddNode c.nodeMaster)
      else
        if ¬ c.active then
          let ru := ops.update2 ra.2 c.nodeMaster false
          if (¬ ru.1.1 ∧ i > 0) ∨ ru.1.2.isSome then
            .error (.failedUpdateStatus c.nodeMaster)
          else vip193Loop ops rest (i + 1) ru.2
        else vip193Loop ops rest (i + 1) ra.2

/-- Header fields consumed by the Process pipeline. -/
structure PHeader where
  id : Nat
  parentID : Nat
  number : Nat
  txsFeatures : Nat
  deriving DecidableEq, Repr

/-- Environment of the Process pipeline: the repository summary lookup, the
results of the two SetCode upgrades, the AllCandidates listing, the state
created from the header id for the authority update, the authority contract
operations, and the result of the downstream validate stage (opaque here:
the validate code lives outside the embedded files). -/
structure CEnv where
  getBlockSummary : Nat → Except LErr Unit
  setCodeExt : Option Nat
  setCodeAuth : Option Nat
  allCandidates : Except Nat (List Candidate)
  authInit : Nat → Nat
  auth : AuthOps
  validate : Except Nat (Nat × Nat)

/-- Translation of UpdateConsensusNodesForVip193: check the block number
against the raw VIP193 fork height, list the candidates, run the candidate
loop, and then access candidates[0] unguarded to re-apply its inactive
status after the loop; the access panics on an empty list. -/
def Consensus.UpdateConsensusNodesForVip193 (env : CEnv) (fcVIP193 : Nat)
    (h : PHeader) : UOut × Nat :=
  if fcVIP193 ≠ h.number then
    (.cerr (.vip193Inconsistent fcVIP193 h.number), env.authInit h.id)
  else
    let st0 := env.authInit h.id
    match env.allCandidates with
    | .error e => (.perr e, st0)
    | .ok candidates =>
      match vip193Loop env.auth candidates 0 st0 with
      | .error ce => (.cerr ce, st0)
      | .ok stL =>
        match candidates with
        | [] => (.panic, stL)
        | c0 :: _ =>
          if ¬ c0.active then
            let ru := env.auth.update2 stL c0.nodeMaster false
            if ¬ ru.1.1 ∨ ru.1.2.isSome then
              (.cerr (.failedUpdateStatus c0.nodeMaster), ru.2)
            else (.ok, ru.2)
          else (.ok, stL)

/-- Process errors: the two flow errors, propagated storage errors, the raw
SetCode error of the extension upgrade, tagged consensus errors, and errors
of the downstream validate stage. -/
inductive PErr where
  | knownBlock
  | parentMissing
  | storage (e : Nat)
  | rawErr (e : Nat)
  | consensus (e : CErr)
  | validateErr (e : Nat)
  deriving DecidableEq, Repr

/-- Outcome of Process: a stage and receipts, an error (with no stage and no
receipts), or a panic. -/
inductive POut where
  | ok (stage receipts : Nat)
  | err (e : PErr)
  | panic
  deriving DecidableEq, Repr

/-- The delegation feature bit required after VIP191. -/
def delegationFeature : Nat := 1

/-- Result of the trailing validate stage of Process. -/
def Consensus.runValidate (env : CEnv) : POut :=
  match env.validate with
  | .ok sr => .ok sr.1 sr.2
  | .error e => .err (.validateErr e)

/-- Translation of Consensus.Process: known block and missing parent checks,
the VIP191 extension upgrade and transaction features check with the zero
height adjusted to one, the VIP193 authority upgrade likewise adjusted, and
the trailing validate stage.  A plain (non consensus) error from
UpdateConsensusNodesForVip193 hits the unchecked type assertion in the
source, which is a panic. -/
def Consensus.Process (env : CEnv) (fc : ForkConfig) (h : PHeader) : POut :=
  match env.getBlockSummary h.id with
  | .ok _ => .err .knownBlock
  | .error (.other e) => .err (.storage e)
  | .error .notFound =>
    match env.getBlockSummary h.parentID with
    | .error .notFound => .err .parentMissing
    | .error (.other e) => .err (.storage e)
    | .ok _ =>
      let vip191 := if fc.VIP191 = 0 then 1 else fc.VIP191
      match (if h.number = vip191 then env.setCodeExt else none) with
      | some e => .err (.rawErr e)
      | none =>
        let features : Nat := if h.number ≥ vip191 then delegationFeature else 0
        if h.txsFeatures ≠ features then
          .err (.consensus (.txFeaturesMismatch features h.txsFeatures))
        else
          let vip193 := if fc.VIP193 = 0 then 1 else fc.VIP193
          if h.number = vip193 then
            match env.setCodeAuth with
            | some e => .err (.consensus (.authorityCode e))
            | none =>
              match Consensus.UpdateConsensusNodesForVip193 env fc.VIP193 h with
              | (.ok, _) => Consensus.runValidate env
              | (.cerr ce, _) => .err (.consensus ce)
              | (.perr _, _) => .panic
              | (.panic, _) => .panic
          else Consensus.runValidate env

/-! ## Concrete instances used by witnesses -/

/-- Environment whose repository stores every block id. -/
def envKnown : CEnv :=
  { getBlockSummary := fun _ => .ok ()
    setCodeExt := none
    setCodeAuth := none
    allCandidates := .ok []
    authInit := fun _ => 0
    auth :=
      { add2 := fun st _ _ _ _ => ((true, none), st)
        update2 := fun st _ _ => ((true, none), st) }
    validate := .ok (7, 3) }

/-- Environment whose repository stores no block id at all. -/
def envEmpty : CEnv :=
  { envKnown with getBlockSummary := fun _ => .error .notFound }

/-- Sample header used by concrete instantiations. -/
def hdr0 : PHeader := { id := 100, parentID := 99, number := 5, txsFeatures := 1 }

/-- Environment whose repository does not know block 100 but knows every
other id, with all collaborator calls succeeding. -/
def envFlow : CEnv :=
  { envKnown with getBlockSummary := fun n => if n = 100 then .error .notFound else .ok () }

/-- Sample header with an empty transaction features bitset. -/
def hdrNoFeat : PHeader := { id := 100, parentID := 99, number := 5, txsFeatures := 0 }

/-- Fork configuration activating VIP191 at height three. -/
def fcA : ForkConfig := { VIP191 := 3, ETH_CONST := 0, BLOCKLIST := 0, VIP193 := 1000 }

/-- Fork configuration activating VIP191 at height nine. -/
def fcB : ForkConfig := { VIP191 := 9, ETH_CONST := 0, BLOCKLIST := 0, VIP193 := 1000 }

/-- Fork configuration with VIP191 set to zero. -/
def fc191zero : ForkConfig := { VIP191 := 0, ETH_CONST := 0, BLOCKLIST := 0, VIP193 := 1000 }

/-- Fork configuration with VIP193 set to zero. -/
def fc193zero : ForkConfig := { VIP191 := 50, ETH_CONST := 0, BLOCKLIST := 0, VIP193 := 0 }

/-- Header numbered zero carrying the delegation bit. -/
def hdrZero1 : PHeader := { id := 100, parentID := 99, number := 0, txsFeatures := 1 }

/-- Header numbered zero with an empty bitset. -/
def hdrZero0 : PHeader := { id := 100, parentID := 99, number := 0, txsFeatures := 0 }

/-- Header numbered one carrying the delegation bit. -/
def hdrOne1 : PHeader := { id := 100, parentID := 99, number := 1, txsFeatures := 1 }

/-- Header numbered one with an empty bitset. -/
def hdrOne0 : PHeader := { id := 100, parentID := 99, number := 1, txsFeatures := 0 }

/-- Environment envFlow with a failing extension upgrade. -/
def envExtErr : CEnv := { envFlow with setCodeExt := some 42 }

/-- Environment envFlow with a failing authority upgrade. -/
def envAuthErr : CEnv := { envFlow with setCodeAuth := some 9 }

/-- Candidate whose node master is in the static VRF key table. -/
def candKnown : Candidate := { nodeMaster := vrfAddr1, endorsor := 1, identity := 2, active := true }

/-- Candidate whose node master is absent from the static VRF key table. -/
def candUnknown : Candidate := { nodeMaster := 777, endorsor := 3, identity := 4, active := true }

/-- Environment listing a known candidate followed by an unknown one. -/
def envVrf : CEnv := { envFlow with allCandidates := .ok [candKnown, candUnknown] }

/-- Fork configuration activating VIP191 at three and VIP193 at five. -/
def fcC5 : ForkConfig := { VIP191 := 3, ETH_CONST := 0, BLOCKLIST := 0, VIP193 := 5 }

/-- Candidate recorded inactive whose node master is in the static table. -/
def candInactive : Candidate := { nodeMaster := vrfAddr2, endorsor := 1, identity := 2, active := false }

/-- Environment listing only the inactive candidate. -/
def envC6 : CEnv := { envFlow with allCandidates := .ok [candInactive] }

/-- Authority operations whose Update2 reports no effect (false without an
error) while Add2 succeeds. -/
def opsFlaky : AuthOps :=
  { add2 := fun st _ _ _ _ => ((true, none), st + 1)
    update2 := fun st _ _ => ((false, none), st + 2) }

/-- Concrete view used by the concrete BFT repository. -/
def bview0 : BView :=
  { firstBlockID := 1
    hasQCForNV := true
    numSigOnPC := fun _ => 1
    hasQCForPP := (true, 7)
    hasConflictPC := false }

/-- Concrete branch whose headers have timestamps ten times their number. -/
def branch0 : Branch :=
  { headID := 0
    getBlockHeader := fun n => .ok ⟨n, 10 * n, 0⟩
    newView := fun _ => .ok bview0 }

/-- Concrete BFT repository: block n has timestamp 10 n, and a block is an
ancestor of another exactly when its id is smaller. -/
def brepo1 : BRepo :=
  { getBlockSummary := fun n => .ok ⟨⟨n, 10 * n, 0⟩⟩
    isAncestor := fun a b => .ok (decide (b < a))
    newChain := fun _ => branch0
    getBranchesByTimestamp := fun _ => .ok []
    blockNumber := fun n => n }

/-- BFT repository whose ancestry check always errs. -/
def brepoErr : BRepo := { brepo1 with isAncestor := fun _ _ => .error (.code 3) }

/-- View lacking a new-view quorum. -/
def viewNoQC : BView :=
  { firstBlockID := 1
    hasQCForNV := false
    numSigOnPC := fun _ => 1
    hasQCForPP := (true, 7)
    hasConflictPC := false }

/-- Branch producing the view without a quorum. -/
def branchNoQC : Branch := { branch0 with newView := fun _ => .ok viewNoQC }

/-- BFT repository whose views lack a new-view quorum. -/
def brepoNoQC : BRepo := { brepo1 with newChain := fun _ => branchNoQC }

/-- BFT repository whose summary lookups always fail. -/
def brepoPanic : BRepo := { brepo1 with getBlockSummary := fun _ => .error (.code 5) }

/-! ## Theorems -/

/-- Claim C3: the claim states that every field of the NoFork sentinel equals
the maximum uint32 value 4294967295.  The source sets VIP191, ETH_CONST and
BLOCKLIST to that value but sets VIP193 to math.MaxInt32, which is
2147483647, so the VIP193 field diverges from the claim. -/
theorem claim_C3_noFork_fields :
    NoFork.VIP191 = 4294967295 ∧ NoFork.ETH_CONST = 4294967295 ∧
    NoFork.BLOCKLIST = 4294967295 ∧ NoFork.VIP193 = 2147483647 ∧
    NoFork.VIP193 ≠ 4294967295 := by
  refine ⟨rfl, rfl, rfl, rfl, ?_⟩
  decide

/-- Claim C7: when the repository already stores the block id, Process
returns the KnownBlock flow error regardless of every other input, so the
check precedes all other checks; when the block is unknown and the parent
lookup reports not found, Process returns the ParentMissing flow error; both
outcomes carry no stage and no receipts. -/
theorem claim_C7_flow_errors (env : CEnv) (fc : ForkConfig) (h : PHeader) :
    (env.getBlockSummary h.id = .ok () →
       Consensus.Process env fc h = .err .knownBlock) ∧
    (env.getBlockSummary h.id = .error .notFound →
       env.getBlockSummary h.parentID = .error .notFound →
       Consensus.Process env fc h = .err .parentMissing) := by
  constructor
  · intro hk
    unfold Consensus.Process
    rw [hk]
  · intro hnf hp
    unfold Consensus.Process
    rw [hnf, hp]

/-- Witness for claim C7 at concrete environments. -/
theorem claim_C7_flow_errors_witness :
    Consensus.Process envKnown NoFork hdr0 = .err .knownBlock ∧
    Consensus.Process envEmpty NoFork hdr0 = .err .parentMissing :=
  ⟨(claim_C7_flow_errors envKnown NoFork hdr0).1 rfl,
   (claim_C7_flow_errors envEmpty NoFork hdr0).2 rfl rfl⟩

/-- Claim C9: UpdateConsensusNodesForVip193 panics by indexing the first
candidate exactly when the block number matches the raw VIP193 height and
the candidate listing succeeds with an empty list; in every other case the
unguarded access is not reached, so the function is total precisely under
the precondition that at least one candidate exists. -/
theorem claim_C9_empty_candidates (env : CEnv) (fcV : Nat) (h : PHeader) :
    (Consensus.UpdateConsensusNodesForVip193 env fcV h).1 = .panic ↔
    (fcV = h.number ∧ env.allCandidates = .ok []) := by
  unfold Consensus.UpdateConsensusNodesForVip193
  by_cases hne : fcV ≠ h.number
  · rw [if_pos hne]
    constructor
    · intro hx
      simp at hx
    · rintro ⟨h1, -⟩
      exact absurd h1 hne
  · push_neg at hne
    rw [if_neg (by simp [hne])]
    rcases hA : env.allCandidates with e | cands
    · simp
    · rcases cands with - | ⟨c0, tl⟩
      · simp [vip193Loop, hne]
      · dsimp only
        rcases hL : vip193Loop env.auth (c0 :: tl) 0 (env.authInit h.id) with ce | stL
        · simp
        · by_cases hact : c0.active
          · simp [hact]
          · simp only [hact, Bool.not_false, if_true, Bool.false_eq_true, not_false_eq_true]
            split <;> simp

/-- Witness for claim C9: with a consistent block number and an empty
candidate list the function panics. -/
theorem claim_C9_empty_candidates_witness :
    (Consensus.UpdateConsensusNodesForVip193 envKnown 5 hdr0).1 = .panic :=
  (claim_C9_empty_candidates envKnown 5 hdr0).mpr ⟨rfl, rfl⟩

/-- Claim C4: once the early flow checks pass, a block whose number is at
least the effective VIP191 activation height (the configured height, with
zero adjusted to one) is rejected with the TxFeaturesMismatch consensus
error unless its transaction features bitset is exactly the delegation
feature bit, and a block below that height is rejected with the same error
unless the bitset is empty. -/
theorem claim_C4_tx_features (env : CEnv) (fc : ForkConfig) (h : PHeader)
    (hunk : env.getBlockSummary h.id = .error .notFound)
    (hpar : env.getBlockSummary h.parentID = .ok ())
    (hext : h.number = (if fc.VIP191 = 0 then 1 else fc.VIP191) → env.setCodeExt = none) :
    (h.number ≥ (if fc.VIP191 = 0 then 1 else fc.VIP191) →
       h.txsFeatures ≠ delegationFeature →
       Consensus.Process env fc h =
         .err (.consensus (.txFeaturesMismatch delegationFeature h.txsFeatures))) ∧
    (h.number < (if fc.VIP191 = 0 then 1 else fc.VIP191) →
       h.txsFeatures ≠ 0 →
       Consensus.Process env fc h =
         .err (.consensus (.txFeaturesMismatch 0 h.txsFeatures))) := by
  constructor
  · intro hge hmm
    unfold Consensus.Process
    rw [hunk, hpar]
    dsimp only
    by_cases hEq : h.number = (if fc.VIP191 = 0 then 1 else fc.VIP191)
    · rw [if_pos hEq, hext hEq]
      dsimp only
      rw [if_pos hge, if_pos hmm]
    · rw [if_neg hEq]
      dsimp only
      rw [if_pos hge, if_pos hmm]
  · intro hlt hmm
    unfold Consensus.Process
    rw [hunk, hpar]
    dsimp only
    have hEq : ¬ h.number = (if fc.VIP191 = 0 then 1 else fc.VIP191) :=
      fun hc => absurd hc (Nat.ne_of_lt hlt)
    rw [if_neg hEq]
    dsimp only
    rw [if_neg (Nat.not_le_of_lt hlt), if_pos hmm]

/-- Witness for claim C4: a post activation block with an empty bitset and a
pre activation block with the delegation bit are both rejected with the
expected TxFeaturesMismatch payloads. -/
theorem claim_C4_tx_features_witness :
    Consensus.Process envFlow fcA hdrNoFeat =
      .err (.consensus (.txFeaturesMismatch delegationFeature 0)) ∧
    Consensus.Process envFlow fcB hdr0 =
      .err (.consensus (.txFeaturesMismatch 0 1)) :=
  ⟨(claim_C4_tx_features envFlow fcA hdrNoFeat rfl rfl (fun _ => rfl)).1
      (by decide) (by decide),
   (claim_C4_tx_features envFlow fcB hdr0 rfl rfl (fun _ => rfl)).2
      (by decide) (by decide)⟩

/-- Claim C10: a configured activation height of zero is treated as one.
With VIP191 set to zero, a block numbered zero skips the extension upgrade
(whatever the upgrade result would be) and is required to carry an empty
features bitset, while a block numbered one undergoes the upgrade (a failing
upgrade surfaces its raw error) and is required to carry the delegation bit.
With VIP193 set to zero, a block numbered zero skips the authority upgrade
entirely (Process goes straight to the validate stage), while a block
numbered one undergoes it (a failing authority upgrade surfaces as its
consensus error). -/
theorem claim_C10_zero_height (env : CEnv) (fc : ForkConfig) (h : PHeader)
    (hunk : env.getBlockSummary h.id = .error .notFound)
    (hpar : env.getBlockSummary h.parentID = .ok ()) :
    (fc.VIP191 = 0 → h.number = 0 → h.txsFeatures ≠ 0 →
       Consensus.Process env fc h =
         .err (.consensus (.txFeaturesMismatch 0 h.txsFeatures))) ∧
    (fc.VIP191 = 0 → h.number = 1 → ∀ e, env.setCodeExt = some e →
       Consensus.Process env fc h = .err (.rawErr e)) ∧
    (fc.VIP191 = 0 → h.number = 1 → env.setCodeExt = none →
       h.txsFeatures ≠ delegationFeature →
       Consensus.Process env fc h =
         .err (.consensus (.txFeaturesMismatch delegationFeature h.txsFeatures))) ∧
    (fc.VIP193 = 0 → h.number = 0 → h.txsFeatures = 0 →
       Consensus.Process env fc h = Consensus.runValidate env) ∧
    (fc.VIP193 = 0 → h.number = 1 →
       (h.number = (if fc.VIP191 = 0 then 1 else fc.VIP191) → env.setCodeExt = none) →
       h.txsFeatures = (if h.number ≥ (if fc.VIP191 = 0 then 1 else fc.VIP191)
                        then delegationFeature else 0) →
       ∀ e, env.setCodeAuth = some e →
       Consensus.Process env fc h = .err (.consensus (.authorityCode e))) := by
  refine ⟨?_, ?_, ?_, ?_, ?_⟩
  · intro h191 hn hmm
    unfold Consensus.Process
    rw [hunk, hpar]
    dsimp only
    rw [if_pos h191]
    rw [if_neg (show ¬ h.number = 1 by omega)]
    dsimp only
    rw [if_neg (show ¬ h.number ≥ 1 by omega)]
    rw [if_pos hmm]
  · intro h191 hn e hse
    unfold Consensus.Process
    rw [hunk, hpar]
    dsimp only
    rw [if_pos h191, if_pos hn, hse]
  · intro h191 hn hse hmm
    unfold Consensus.Process
    rw [hunk, hpar]
    dsimp only
    rw [if_pos h191, if_pos hn, hse]
    dsimp only
    rw [if_pos (show h.number ≥ 1 by omega)]
    rw [if_pos hmm]
  · intro h193 hn hf
    unfold Consensus.Process
    rw [hunk, hpar]
    dsimp only
    have hpos : 1 ≤ (if fc.VIP191 = 0 then 1 else fc.VIP191) := by split <;> omega
    rw [if_neg (show ¬ h.number = (if fc.VIP191 = 0 then 1 else fc.VIP191) by omega)]
    dsimp only
    rw [if_neg (show ¬ h.number ≥ (if fc.VIP191 = 0 then 1 else fc.VIP191) by omega)]
    rw [if_neg (show ¬ h.txsFeatures ≠ 0 by simp [hf])]
    rw [if_pos h193]
    rw [if_neg (show ¬ h.number = 1 by omega)]
  · intro h193 hn hext hfeat e hse
    unfold Consensus.Process
    rw [hunk, hpar]
    dsimp only
    by_cases hEq : h.number = (if fc.VIP191 = 0 then 1 else fc.VIP191)
    · rw [if_pos hEq, hext hEq]
      dsimp only
      rw [if_neg (not_not_intro hfeat)]
      rw [if_pos h193, if_pos hn, hse]
    · rw [if_neg hEq]
      dsimp only
      rw [if_neg (not_not_intro hfeat)]
      rw [if_pos h193, if_pos hn, hse]

/-- Witness for claim C10, exercising all five conjuncts at concrete
configurations with a zero activation height. -/
theorem claim_C10_zero_height_witness :
    Consensus.Process envFlow fc191zero hdrZero1 =
      .err (.consensus (.txFeaturesMismatch 0 1)) ∧
    Consensus.Process envExtErr fc191zero hdrOne1 = .err (.rawErr 42) ∧
    Consensus.Process envFlow fc191zero hdrOne0 =
      .err (.consensus (.txFeaturesMismatch delegationFeature 0)) ∧
    Consensus.Process envFlow fc193zero hdrZero0 = Consensus.runValidate envFlow ∧
    Consensus.Process envAuthErr fc193zero hdrOne0 =
      .err (.consensus (.authorityCode 9)) :=
  ⟨(claim_C10_zero_height envFlow fc191zero hdrZero1 rfl rfl).1 rfl rfl (by decide),
   (claim_C10_zero_height envExtErr fc191zero hdrOne1 rfl rfl).2.1 rfl rfl 42 rfl,
   (claim_C10_zero_height envFlow fc191zero hdrOne0 rfl rfl).2.2.1 rfl rfl rfl (by decide),
   (claim_C10_zero_height envFlow fc193zero hdrZero0 rfl rfl).2.2.2.1 rfl rfl rfl,
   (claim_C10_zero_height envAuthErr fc193zero hdrOne0 rfl rfl).2.2.2.2 rfl rfl
     (fun hc => absurd hc (by decide)) (by decide) 9 rfl⟩

/-- Splitting lemma for the candidate loop: when the loop succeeds on a
prefix, running it on the concatenation continues on the suffix from the
reached state, with the index advanced by the prefix length. -/
theorem vip193Loop_ok_append (ops : AuthOps) (pre suf : List Candidate) :
    ∀ (i st st' : Nat), vip193Loop ops pre i st = .ok st' →
    vip193Loop ops (pre ++ suf) i st = vip193Loop ops suf (i + pre.length) st' := by
  induction pre with
  | nil =>
    intro i st st' hp
    simp only [vip193Loop] at hp
    injection hp with hp
    subst hp
    simp
  | cons c rest ih =>
    intro i st st' hp
    simp only [List.cons_append, vip193Loop] at hp ⊢
    by_cases h0 : GetVrfPuiblicKey c.nodeMaster = 0
    · rw [if_pos h0] at hp
      exact absurd hp (by simp)
    · rw [if_neg h0] at hp ⊢
      by_cases hA : ¬ (ops.add2 st c.nodeMaster c.endorsor c.identity
          (GetVrfPuiblicKey c.nodeMaster)).1.1 ∨
          (ops.add2 st c.nodeMaster c.endorsor c.identity
          (GetVrfPuiblicKey c.nodeMaster)).1.2.isSome
      · rw [if_pos hA] at hp
        exact absurd hp (by simp)
      · rw [if_neg hA] at hp ⊢
        by_cases hAct : c.active
        · rw [if_neg (not_not_intro hAct)] at hp ⊢
          simp only [List.length_cons]
          rw [show i + (rest.length + 1) = i + 1 + rest.length from by omega]
          exact ih _ _ _ hp
        · rw [if_pos hAct] at hp ⊢
          by_cases hU : (¬ (ops.update2 (ops.add2 st c.nodeMaster c.endorsor c.identity
              (GetVrfPuiblicKey c.nodeMaster)).2 c.nodeMaster false).1.1 ∧ i > 0) ∨
              (ops.update2 (ops.add2 st c.nodeMaster c.endorsor c.identity
              (GetVrfPuiblicKey c.nodeMaster)).2 c.nodeMaster false).1.2.isSome
          · rw [if_pos hU] at hp
            exact absurd hp (by simp)
          · rw [if_neg hU] at hp ⊢
            simp only [List.length_cons]
            rw [show i + (rest.length + 1) = i + 1 + rest.length from by omega]
            exact ih _ _ _ hp

/-- Claim C5: at the VIP193 activation block, Process runs the authority
update, which looks every candidate node master up in the static embedded
VRF key table; when the table yields the zero key for a candidate (all
earlier candidates having been processed successfully), Process fails with
the vrf public key not found consensus error. -/
theorem claim_C5_missing_vrf_key (env : CEnv) (fc : ForkConfig) (h : PHeader)
    (pre rest : List Candidate) (c : Candidate) (st' : Nat)
    (hunk : env.getBlockSummary h.id = .error .notFound)
    (hpar : env.getBlockSummary h.parentID = .ok ())
    (hext : h.number = (if fc.VIP191 = 0 then 1 else fc.VIP191) → env.setCodeExt = none)
    (hfeat : h.txsFeatures = (if h.number ≥ (if fc.VIP191 = 0 then 1 else fc.VIP191)
                              then delegationFeature else 0))
    (hv : fc.VIP193 = h.number) (hnz : fc.VIP193 ≠ 0)
    (hauth : env.setCodeAuth = none)
    (hcand : env.allCandidates = .ok (pre ++ c :: rest))
    (hpre : vip193Loop env.auth pre 0 (env.authInit h.id) = .ok st')
    (hzero : GetVrfPuiblicKey c.nodeMaster = 0) :
    Consensus.Process env fc h = .err (.consensus (.vrfKeyNotFound c.nodeMaster)) := by
  have hU : Consensus.UpdateConsensusNodesForVip193 env fc.VIP193 h =
      (.cerr (.vrfKeyNotFound c.nodeMaster), env.authInit h.id) := by
    unfold Consensus.UpdateConsensusNodesForVip193
    rw [if_neg (not_not_intro hv)]
    dsimp only
    rw [hcand]
    dsimp only
    rw [vip193Loop_ok_append env.auth pre (c :: rest) 0 (env.authInit h.id) st' hpre]
    simp only [vip193Loop]
    rw [if_pos hzero]
  have hv3 : (if fc.VIP193 = 0 then 1 else fc.VIP193) = h.number := by
    rw [if_neg hnz]
    exact hv
  unfold Consensus.Process
  rw [hunk, hpar]
  dsimp only
  by_cases hEq : h.number = (if fc.VIP191 = 0 then 1 else fc.VIP191)
  · rw [if_pos hEq, hext hEq]
    dsimp only
    rw [if_neg (not_not_intro hfeat), hv3, if_pos rfl, hauth]
    dsimp only
    rw [hU]
  · rw [if_neg hEq]
    dsimp only
    rw [if_neg (not_not_intro hfeat), hv3, if_pos rfl, hauth]
    dsimp only
    rw [hU]

/-- Witness for claim C5: processing the VIP193 activation block with a
candidate whose node master is not in the static table fails with the vrf
key not found error. -/
theorem claim_C5_missing_vrf_key_witness :
    Consensus.Process envVrf fcC5 hdr0 = .err (.consensus (.vrfKeyNotFound 777)) :=
  claim_C5_missing_vrf_key envVrf fcC5 hdr0 [candKnown] [] candUnknown 0
    rfl rfl (fun _ => rfl) (by decide) rfl (by decide) rfl rfl rfl rfl

/-- Claim C6: on a successful run with a non empty candidate list whose
first candidate is recorded inactive, UpdateConsensusNodesForVip193 applies
the Update2 status call for that candidate once more after the loop, so the
final contract state is the one reached by that extra call; inside the loop
a false Update2 result without error is tolerated for the candidate at
index zero and is a consensus error for every later index. -/
theorem claim_C6_first_candidate (env : CEnv) (fcV : Nat) (h : PHeader)
    (ops : AuthOps) (c : Candidate) (rest : List Candidate)
    (st stA stU stL st' i : Nat) :
    (fcV = h.number → env.allCandidates = .ok (c :: rest) →
       vip193Loop env.auth (c :: rest) 0 (env.authInit h.id) = .ok stL →
       c.active = false →
       env.auth.update2 stL c.nodeMaster false = ((true, none), st') →
       Consensus.UpdateConsensusNodesForVip193 env fcV h = (.ok, st')) ∧
    (c.active = false → GetVrfPuiblicKey c.nodeMaster ≠ 0 →
       ops.add2 st c.nodeMaster c.endorsor c.identity (GetVrfPuiblicKey c.nodeMaster) =
         ((true, none), stA) →
       ops.update2 stA c.nodeMaster false = ((false, none), stU) →
       vip193Loop ops (c :: rest) 0 st = vip193Loop ops rest 1 stU) ∧
    (c.active = false → GetVrfPuiblicKey c.nodeMaster ≠ 0 →
       ops.add2 st c.nodeMaster c.endorsor c.identity (GetVrfPuiblicKey c.nodeMaster) =
         ((true, none), stA) →
       ops.update2 stA c.nodeMaster false = ((false, none), stU) →
       i > 0 →
       vip193Loop ops (c :: rest) i st = .error (.failedUpdateStatus c.nodeMaster)) := by
  refine ⟨?_, ?_, ?_⟩
  · intro hfc hcand hloop hact hupd
    unfold Consensus.UpdateConsensusNodesForVip193
    rw [if_neg (not_not_intro hfc)]
    dsimp only
    rw [hcand]
    dsimp only
    rw [hloop]
    dsimp only
    rw [if_pos (by simp [hact])]
    rw [hupd]
    dsimp only
    rw [if_neg (by simp)]
  · intro hact hkey hadd hupd
    simp only [vip193Loop]
    rw [if_neg hkey, hadd]
    dsimp only
    rw [if_neg (by simp)]
    rw [if_pos (by simp [hact])]
    rw [hupd]
    dsimp only
    rw [if_neg (by simp)]
  · intro hact hkey hadd hupd hi
    simp only [vip193Loop]
    rw [if_neg hkey, hadd]
    dsimp only
    rw [if_neg (by simp)]
    rw [if_pos (by simp [hact])]
    rw [hupd]
    dsimp only
    rw [if_pos (by simp [hi])]

/-- Witness for claim C6: the post loop Update2 call fixes the inactive
first candidate on a successful run, the loop tolerates a false Update2 at
index zero, and the loop fails on a false Update2 at a positive index. -/
theorem claim_C6_first_candidate_witness :
    Consensus.UpdateConsensusNodesForVip193 envC6 5 hdr0 = (.ok, 0) ∧
    vip193Loop opsFlaky [candInactive] 0 10 = vip193Loop opsFlaky [] 1 13 ∧
    vip193Loop opsFlaky [candInactive] 2 10 = .error (.failedUpdateStatus vrfAddr2) :=
  ⟨(claim_C6_first_candidate envC6 5 hdr0 opsFlaky candInactive [] 10 11 13 0 0 2).1
      rfl rfl rfl rfl rfl,
   (claim_C6_first_candidate envC6 5 hdr0 opsFlaky candInactive [] 10 11 13 0 0 2).2.1
      rfl (by decide) rfl rfl,
   (claim_C6_first_candidate envC6 5 hdr0 opsFlaky candInactive [] 10 11 13 0 0 2).2.2
      rfl (by decide) rfl rfl (by decide)⟩

/-- Claim C1: on a tracker whose lastCommitted is non zero,
updateLastCommitted leaves the whole state unchanged and returns an error
when the ancestry check errs or denies, it returns the offspring error
exactly on denial, on success it moves lastCommitted to the new id and
clears curr exactly when curr is present with a timestamp at most the
timestamp of the header of the new id, and lastCommitted only ever moves
when the ancestry check affirmed descent. -/
theorem claim_C1_update_last_committed (repo : BRepo) (r : RTPCState) (lc : Nat)
    (h0 : r.lastCommitted ≠ 0) :
    (∀ e, repo.isAncestor lc r.lastCommitted = .error e →
       rtpc.updateLastCommitted repo r lc = (some e, r)) ∧
    (repo.isAncestor lc r.lastCommitted = .ok false →
       rtpc.updateLastCommitted repo r lc = (some .notOffspring, r)) ∧
    (∀ s, repo.isAncestor lc r.lastCommitted = .ok true →
       repo.getBlockSummary lc = .ok s →
       rtpc.updateLastCommitted repo r lc =
         (none,
          { curr := match r.curr with
                    | some c => if c.timestamp ≤ s.header.timestamp then none else some c
                    | none => none
            lastCommitted := lc })) ∧
    ((rtpc.updateLastCommitted repo r lc).2.lastCommitted ≠ r.lastCommitted →
       repo.isAncestor lc r.lastCommitted = .ok true) := by
  obtain ⟨curr, lcOld⟩ := r
  dsimp only at h0
  refine ⟨?_, ?_, ?_, ?_⟩
  · intro e ha
    unfold rtpc.updateLastCommitted
    dsimp only
    rw [if_pos h0, ha]
  · intro ha
    unfold rtpc.updateLastCommitted
    dsimp only
    rw [if_pos h0, ha]
  · intro s ha hs
    unfold rtpc.updateLastCommitted
    dsimp only
    rw [if_pos h0, ha]
    dsimp only
    rcases curr with - | c
    · rfl
    · dsimp only
      rw [hs]
      dsimp only
      by_cases ht : c.timestamp ≤ s.header.timestamp
      · rw [if_pos ht, if_pos ht]
      · rw [if_neg ht, if_neg ht]
  · intro hne
    unfold rtpc.updateLastCommitted at hne
    dsimp only at hne
    rw [if_pos h0] at hne
    rcases hA : repo.isAncestor lc lcOld with e | b
    · rw [hA] at hne
      dsimp only at hne
      exact absurd rfl hne
    · rcases b
      · rw [hA] at hne
        dsimp only at hne
        exact absurd rfl hne
      · rfl

/-- Witness for claim C1: a denied ancestry check leaves the state intact,
an erring check does too, a successful update moves lastCommitted and clears
the stale candidate, and a moved lastCommitted certifies descent. -/
theorem claim_C1_update_last_committed_witness :
    rtpc.updateLastCommitted brepo1 ⟨none, 7⟩ 5 = (some .notOffspring, ⟨none, 7⟩) ∧
    rtpc.updateLastCommitted brepoErr ⟨none, 7⟩ 5 = (some (.code 3), ⟨none, 7⟩) ∧
    rtpc.updateLastCommitted brepo1 ⟨some ⟨2, 20, 0⟩, 3⟩ 5 = (none, ⟨none, 5⟩) ∧
    brepo1.isAncestor 5 3 = .ok true :=
  ⟨(claim_C1_update_last_committed brepo1 ⟨none, 7⟩ 5 (by decide)).2.1 rfl,
   (claim_C1_update_last_committed brepoErr ⟨none, 7⟩ 5 (by decide)).1 (.code 3) rfl,
   (claim_C1_update_last_committed brepo1 ⟨some ⟨2, 20, 0⟩, 3⟩ 5 (by decide)).2.2.1
     ⟨⟨5, 50, 0⟩⟩ rfl rfl,
   (claim_C1_update_last_committed brepo1 ⟨some ⟨2, 20, 0⟩, 3⟩ 5 (by decide)).2.2.2
     (by decide)⟩

/-- Helper: the continuation updateRest never panics. -/
theorem updateRest_ne_panic (repo : BRepo) (fuel : Nat) (v : BView) (ts : Nat)
    (r1 : RTPCState) : (rtpc.updateRest repo fuel v ts r1).1 ≠ .panic := by
  intro hp
  unfold rtpc.updateRest at hp
  by_cases hpp : ¬ v.hasQCForPP.1 ∨ v.hasConflictPC
  · rw [if_pos hpp] at hp
    simp at hp
  · rw [if_neg hpp] at hp
    rcases h2 : repo.getBlockSummary v.hasQCForPP.2 with e | s2 <;>
      rw [h2] at hp <;> dsimp only at hp
    · simp at hp
    · rcases h3 : repo.getBlockSummary r1.lastCommitted with e | s3 <;>
        rw [h3] at hp <;> dsimp only at hp
      · simp at hp
      · by_cases htm : s2.header.timestamp ≤ s3.header.timestamp
        · rw [if_pos htm] at hp
          simp at hp
        · rw [if_neg htm] at hp
          rcases hb : repo.getBranchesByTimestamp ts with e | branches <;>
            rw [hb] at hp <;> dsimp only at hp
          · simp at hp
          · rcases hsr : searchBranches repo ts s2.header.id fuel branches with ifU | e
            · rw [hsr] at hp
              dsimp only at hp
              rcases ifU
              · rw [if_neg (by simp)] at hp
                simp at hp
              · rw [if_pos rfl] at hp
                simp at hp
            · rw [hsr] at hp
              simp at hp
            · rw [hsr] at hp
              simp at hp

/-- Helper: when the continuation updateRest produces a state holding a
candidate although the incoming state held none, the candidate is the header
of the pre-prepare quorum block, and the last committed summary lookup
succeeded with a strictly older timestamp. -/
theorem updateRest_adopt (repo : BRepo) (fuel : Nat) (v : BView) (ts : Nat)
    (r1 : RTPCState) (cand : BHeader) (hr1 : r1.curr = none)
    (hcurr : (rtpc.updateRest repo fuel v ts r1).2.curr = some cand) :
    ∃ s2 s3, repo.getBlockSummary v.hasQCForPP.2 = .ok s2 ∧ cand = s2.header ∧
      repo.getBlockSummary r1.lastCommitted = .ok s3 ∧
      s3.header.timestamp < cand.timestamp := by
  unfold rtpc.updateRest at hcurr
  by_cases hpp : ¬ v.hasQCForPP.1 ∨ v.hasConflictPC
  · rw [if_pos hpp] at hcurr
    dsimp only at hcurr
    rw [hr1] at hcurr
    exact Option.noConfusion hcurr
  · rw [if_neg hpp] at hcurr
    rcases h2 : repo.getBlockSummary v.hasQCForPP.2 with e | s2 <;>
      rw [h2] at hcurr <;> dsimp only at hcurr
    · rw [hr1] at hcurr
      exact Option.noConfusion hcurr
    · rcases h3 : repo.getBlockSummary r1.lastCommitted with e | s3 <;>
        rw [h3] at hcurr <;> dsimp only at hcurr
      · rw [hr1] at hcurr
        exact Option.noConfusion hcurr
      · by_cases htm : s2.header.timestamp ≤ s3.header.timestamp
        · rw [if_pos htm] at hcurr
          dsimp only at hcurr
          rw [hr1] at hcurr
          exact Option.noConfusion hcurr
        · rw [if_neg htm] at hcurr
          rcases hb : repo.getBranchesByTimestamp ts with e | branches <;>
            rw [hb] at hcurr <;> dsimp only at hcurr
          · rw [hr1] at hcurr
            exact Option.noConfusion hcurr
          · rcases hsr : searchBranches repo ts s2.header.id fuel branches with ifU | e
            · rw [hsr] at hcurr
              dsimp only at hcurr
              rcases ifU
              · rw [if_neg (by simp)] at hcurr
                dsimp only at hcurr
                rw [hr1] at hcurr
                exact Option.noConfusion hcurr
              · rw [if_pos rfl] at hcurr
                dsimp only at hcurr
                injection hcurr with hcurr
                exact ⟨s2, s3, rfl, hcurr.symm, rfl,
                  hcurr.symm ▸ Nat.lt_of_not_le htm⟩
            · rw [hsr] at hcurr
              dsimp only at hcurr
              rw [hr1] at hcurr
              exact Option.noConfusion hcurr
            · rw [hsr] at hcurr
              dsimp only at hcurr
              rw [hr1] at hcurr
              exact Option.noConfusion hcurr

/-- Claim C2: when the view containing the new block lacks a new-view
quorum, update leaves the tracker unchanged; and whenever update adopts a
new candidate header, the first block of the adopting view carries a
timestamp strictly greater than that of the previously held candidate (when
one was present) and the adopted candidate carries a timestamp strictly
greater than that of the header of the last committed block. -/
theorem claim_C2_update_adoption (repo : BRepo) (fuel : Nat) (r : RTPCState)
    (b : BHeader) :
    (∀ v, (repo.newChain b.id).newView (repo.blockNumber b.nv) = .ok v →
       v.hasQCForNV = false → rtpc.update repo fuel r b = (.ok, r)) ∧
    (∀ cand, (rtpc.update repo fuel r b).2.curr = some cand →
       r.curr ≠ some cand →
       ∃ v s slc,
         (repo.newChain b.id).newView (repo.blockNumber b.nv) = .ok v ∧
         v.hasQCForNV = true ∧
         repo.getBlockSummary v.firstBlockID = .ok s ∧
         (∀ c, r.curr = some c → c.timestamp < s.header.timestamp) ∧
         repo.getBlockSummary r.lastCommitted = .ok slc ∧
         slc.header.timestamp < cand.timestamp) := by
  constructor
  · intro v hv hq
    unfold rtpc.update
    dsimp only
    rw [hv]
    dsimp only
    rw [if_pos (by simp [hq])]
  · intro cand hcurr hne
    unfold rtpc.update at hcurr
    dsimp only at hcurr
    rcases hv : (repo.newChain b.id).newView (repo.blockNumber b.nv) with e | v <;>
      rw [hv] at hcurr <;> dsimp only at hcurr
    · exact absurd hcurr hne
    · cases hq : v.hasQCForNV
      · rw [if_pos (by simp [hq])] at hcurr
        exact absurd hcurr hne
      · rw [if_neg (by simp [hq])] at hcurr
        rcases hs : repo.getBlockSummary v.firstBlockID with e | s <;>
          rw [hs] at hcurr <;> dsimp only at hcurr
        · exact absurd hcurr hne
        · rcases hc : r.curr with - | c <;> rw [hc] at hcurr <;> dsimp only at hcurr
          · rw [if_neg (by simp)] at hcurr
            rw [hc] at hcurr
            rw [if_neg (by simp)] at hcurr
            obtain ⟨s2, s3, h2, hcand, h3, hlt⟩ :=
              updateRest_adopt repo fuel v s.header.timestamp r cand hc hcurr
            exact ⟨v, s, s3, rfl, hq, hs, fun c hcc => Option.noConfusion hcc, h3, hlt⟩
          · simp only [decide_eq_true_eq] at hcurr
            by_cases ht : s.header.timestamp ≤ c.timestamp
            · rw [if_pos ht] at hcurr
              dsimp only at hcurr
              exact absurd hcurr hne
            · rw [if_neg ht] at hcurr
              by_cases hsig : v.numSigOnPC c.id = 0
              · rw [if_pos hsig] at hcurr
                rw [if_neg (by simp)] at hcurr
                obtain ⟨s2, s3, h2, hcand, h3, hlt⟩ :=
                  updateRest_adopt repo fuel v s.header.timestamp
                    ⟨none, r.lastCommitted⟩ cand rfl hcurr
                refine ⟨v, s, s3, rfl, hq, hs, ?_, h3, hlt⟩
                intro c2 hcc
                injection hcc with hcc
                subst hcc
                exact Nat.lt_of_not_le ht
              · rw [if_neg hsig] at hcurr
                rw [if_pos (show r.curr.isSome = true by rw [hc]; rfl)] at hcurr
                dsimp only at hcurr
                exact absurd hcurr hne

/-- Witness for claim C2: without a quorum the tracker is unchanged, and a
concrete adoption satisfies the strict timestamp ordering. -/
theorem claim_C2_update_adoption_witness :
    rtpc.update brepoNoQC 1 ⟨some ⟨2, 20, 0⟩, 3⟩ ⟨42, 0, 0⟩ =
      (.ok, ⟨some ⟨2, 20, 0⟩, 3⟩) ∧
    (∃ v s slc,
       (brepo1.newChain 42).newView (brepo1.blockNumber 0) = .ok v ∧
       v.hasQCForNV = true ∧
       brepo1.getBlockSummary v.firstBlockID = .ok s ∧
       (∀ c, (⟨none, 3⟩ : RTPCState).curr = some c →
          c.timestamp < s.header.timestamp) ∧
       brepo1.getBlockSummary (⟨none, 3⟩ : RTPCState).lastCommitted = .ok slc ∧
       slc.header.timestamp < (⟨7, 70, 0⟩ : BHeader).timestamp) :=
  ⟨(claim_C2_update_adoption brepoNoQC 1 ⟨some ⟨2, 20, 0⟩, 3⟩ ⟨42, 0, 0⟩).1
      viewNoQC rfl rfl,
   (claim_C2_update_adoption brepo1 1 ⟨none, 3⟩ ⟨42, 0, 0⟩).2
      ⟨7, 70, 0⟩ rfl (by decide)⟩

/-- Claim C8: update panics with a nil dereference precisely when the view
construction succeeds, the view has a new-view quorum, and the block summary
lookup of the first block of the view fails: the timestamp is read off the
summary before the lookup error is checked, so that error return is not a
live path. -/
theorem claim_C8_panic (repo : BRepo) (fuel : Nat) (r : RTPCState) (b : BHeader) :
    (rtpc.update repo fuel r b).1 = .panic ↔
    ∃ v, (repo.newChain b.id).newView (repo.blockNumber b.nv) = .ok v ∧
      v.hasQCForNV = true ∧
      ∃ e, repo.getBlockSummary v.firstBlockID = .error e := by
  constructor
  · intro hp
    unfold rtpc.update at hp
    dsimp only at hp
    rcases hv : (repo.newChain b.id).newView (repo.blockNumber b.nv) with e | v <;>
      rw [hv] at hp <;> dsimp only at hp
    · simp at hp
    · cases hq : v.hasQCForNV
      · rw [if_pos (by simp [hq])] at hp
        simp at hp
      · rw [if_neg (by simp [hq])] at hp
        rcases hs : repo.getBlockSummary v.firstBlockID with e | s <;>
          rw [hs] at hp <;> dsimp only at hp
        · exact ⟨v, rfl, hq, e, hs⟩
        · rcases hc : r.curr with - | c <;> rw [hc] at hp <;> dsimp only at hp
          · rw [if_neg (by simp)] at hp
            rw [hc] at hp
            rw [if_neg (by simp)] at hp
            exact absurd hp (updateRest_ne_panic repo fuel v s.header.timestamp r)
          · simp only [decide_eq_true_eq] at hp
            by_cases ht : s.header.timestamp ≤ c.timestamp
            · rw [if_pos ht] at hp
              simp at hp
            · rw [if_neg ht] at hp
              by_cases hsig : v.numSigOnPC c.id = 0
              · rw [if_pos hsig] at hp
                rw [if_neg (by simp)] at hp
                exact absurd hp (updateRest_ne_panic repo fuel v s.header.timestamp
                  ⟨none, r.lastCommitted⟩)
              · rw [if_neg hsig] at hp
                rw [if_pos (show r.curr.isSome = true by rw [hc]; rfl)] at hp
                simp at hp
  · rintro ⟨v, hv, hq, e, hs⟩
    unfold rtpc.update
    dsimp only
    rw [hv]
    dsimp only
    rw [if_neg (by simp [hq]), hs]

/-- Witness for claim C8: a failing first block summary lookup inside a
quorum view makes update panic. -/
theorem claim_C8_panic_witness :
    (rtpc.update brepoPanic 1 ⟨none, 3⟩ ⟨42, 0, 0⟩).1 = .panic :=
  (claim_C8_panic brepoPanic 1 ⟨none, 3⟩ ⟨42, 0, 0⟩).mpr
    ⟨bview0, rfl, rfl, .code 5, rfl⟩
